import Mathlib

/-!
# CronJob resource adapter

A shallow embedding of `internal/resource/cronjob.go`: the adapter that binds a
CronJob fetched from the cluster to the uniform resource contract
(`NewInstance`, `Marshal`, `Run`, `Header`, `Fields`).

Conventions of the embedding

* A Go pointer that may be nil is an `Option`; dereferencing `none` is a runtime panic.
* A Go `(value, error)` pair is a Lean pair whose second component is `Option GoError`.
* A function body that can panic or call `log.Fatalf` returns an `Outcome`.
* Calls on the injected Caller, writes through the fetched pointer and calls to the
  serializer are recorded, in program order, in a list of `Event`s returned next
  to the result.
* Helpers of package `resource` that live in other files (`namespaced`, `toAge`,
  `boolToStr`, `Base.namespacedName`, `Base.marshalObject`, the constant
  `AllNamespaces`) and the constructor `k8s.NewCronJob` are fields of `Env`;
  every general theorem holds for all of them.
-/

set_option autoImplicit false

/-- A Go error value, identified by its message. -/
structure GoError where
  msg : String
deriving DecidableEq, Repr

/-- How the execution of a Go function body ends: it returns a value, it dies in a
runtime panic, or it exits the process through log.Fatalf. -/
inductive Outcome (α : Type) where
  | ret (a : α)
  | panic (msg : String)
  | fatal (msg : String)
deriving DecidableEq, Repr

/-- The panic message of a nil pointer dereference. -/
def nilDereference : String :=
  "runtime error: invalid memory address or nil pointer dereference"

/-- The panic message of a failed unchecked type assertion to pointer to CronJob, on
an empty interface whose dynamic type prints as concrete (nil for the nil interface). -/
def interfaceConversion (concrete : String) : String :=
  "interface conversion: interface \x7b\x7d is " ++ concrete ++ ", not *v1beta1.CronJob"

namespace strconv

/-- Decimal rendering of a non-negative int (strconv.Itoa on a length). -/
def Itoa (n : Nat) : String :=
  Nat.repr n

end strconv

namespace metav1

/-- A point in time (metav1.Time), as seconds since the epoch. -/
structure Time where
  unix : Int
deriving DecidableEq, Repr

/-- The type-identity metadata of an API object. -/
structure TypeMeta where
  Kind : String
  APIVersion : String
deriving DecidableEq, Repr

/-- The part of the object metadata that the adapter reads. -/
structure ObjectMeta where
  Name : String
  Namespace : String
  CreationTimestamp : Time
deriving DecidableEq, Repr

end metav1

namespace v1

/-- A reference to another object (an active job of a cron job). -/
structure ObjectReference where
  Namespace : String
  Name : String
deriving DecidableEq, Repr

end v1

namespace batchv1beta1

/-- The CronJobSpec of k8s.io/api/batch/v1beta1: Suspend is a pointer to bool. -/
structure CronJobSpec where
  Schedule : String
  Suspend : Option Bool
  ConcurrencyPolicy : String
deriving DecidableEq, Repr

/-- The CronJobStatus of k8s.io/api/batch/v1beta1: LastScheduleTime is a pointer. -/
structure CronJobStatus where
  Active : List v1.ObjectReference
  LastScheduleTime : Option metav1.Time
deriving DecidableEq, Repr

/-- The CronJob API object. -/
structure CronJob where
  TypeMeta : metav1.TypeMeta
  ObjectMeta : metav1.ObjectMeta
  Spec : CronJobSpec
  Status : CronJobStatus
deriving DecidableEq, Repr

end batchv1beta1

/-- A value of type interface{} as NewInstance and Marshal receive it, by dynamic type:
a pointer to a CronJob (none is the typed nil pointer), a CronJob value, the nil
interface, or a value of any other type, carried as the name of that type and its
Go-syntax rendering. -/
inductive Raw where
  | cronJobPtr (p : Option batchv1beta1.CronJob)
  | cronJobVal (o : batchv1beta1.CronJob)
  | nilInterface
  | other (typeName goRepr : String)
deriving DecidableEq, Repr

/-- Rendering of a raw object under the format verb used by the fatal log; only the
objects that reach the default branch of the type switch are rendered. -/
def Raw.goRepr : Raw → String
  | Raw.other _ s => s
  | Raw.nilInterface => "<nil>"
  | Raw.cronJobVal _ => "v1beta1.CronJob"
  | Raw.cronJobPtr _ => "&v1beta1.CronJob"

namespace k8s

/-- The injected remote-access handle (k8s.Res). Get is the single synchronous fetch;
Runnable is the Run(ns, n) method of the dynamic type when it has one, none when the
dynamic type does not satisfy the Runnable interface. -/
structure Res where
  Get : String → String → Raw × Option GoError
  Runnable : Option (String → String → Option GoError)

end k8s

/-- The observable steps of the adapter, in program order. -/
inductive Event where
  | callerGet (ns n : String)
  | callerRun (ns n : String)
  | setAPIVersion (v : String)
  | setKind (k : String)
  | marshalObject (o : batchv1beta1.CronJob)
deriving DecidableEq, Repr

namespace resource

/-- A row of display values. -/
abbrev Row := List String

/-- The helpers and constants of package resource defined outside cronjob.go. -/
structure Env where
  AllNamespaces : String
  namespaced : String → String × String
  namespacedName : metav1.ObjectMeta → String
  toAge : metav1.Time → String
  boolToStr : Bool → String
  marshalObject : batchv1beta1.CronJob → String × Option GoError
  k8sNewCronJob : Option k8s.Res

/-- The shared scaffolding: the Caller (a nil interface is none) and the identity path. -/
structure Base where
  caller : Option k8s.Res
  path : String

/-- The CronJob adapter: Base plus the loaded object (nil until populated). -/
structure CronJob extends Base where
  inst : Option batchv1beta1.CronJob

/-- NewCronJobWithArgs instantiates a new CronJob around the given caller. -/
def NewCronJobWithArgs (r : Option k8s.Res) : CronJob :=
  { caller := r, path := "", inst := none }

/-- NewCronJob instantiates a new CronJob around the default caller. -/
def NewCronJob (env : Env) : CronJob :=
  NewCronJobWithArgs env.k8sNewCronJob

/-- NewInstance builds a new CronJob instance from a k8s resource: a type switch on
the raw object, fatal on the default branch, then the path is read through the
instance pointer. -/
def CronJob.NewInstance (env : Env) (i : Raw) : Outcome CronJob :=
  let job := NewCronJob env
  match i with
  | Raw.cronJobPtr p =>
    match p with
    | some o => Outcome.ret { job with inst := some o, path := env.namespacedName o.ObjectMeta }
    | none => Outcome.panic nilDereference
  | Raw.cronJobVal ii =>
    Outcome.ret { job with inst := some ii, path := env.namespacedName ii.ObjectMeta }
  | Raw.nilInterface => Outcome.fatal ("Unknown " ++ Raw.goRepr i)
  | Raw.other _ _ => Outcome.fatal ("Unknown " ++ Raw.goRepr i)

/-- The two assignments of Marshal through the fetched pointer. -/
def stamp (cj : batchv1beta1.CronJob) : batchv1beta1.CronJob :=
  let cj1 := { cj with TypeMeta := { cj.TypeMeta with APIVersion := "extensions/batchv1beta1" } }
  { cj1 with TypeMeta := { cj1.TypeMeta with Kind := "CronJob" } }

/-- Marshal resource to yaml: fetch through the caller, return early on error, assert
the pointer type (unchecked), stamp the type metadata, serialize. -/
def CronJob.Marshal (env : Env) (r : CronJob) (path : String) :
    Outcome (String × Option GoError) × List Event :=
  let nsn := env.namespaced path
  match r.caller with
  | none => (Outcome.panic nilDereference, [])
  | some c =>
    match c.Get nsn.1 nsn.2 with
    | (_, some err) => (Outcome.ret ("", some err), [Event.callerGet nsn.1 nsn.2])
    | (i, none) =>
      match i with
      | Raw.cronJobPtr (some cj) =>
        (Outcome.ret (env.marshalObject (stamp cj)),
          [Event.callerGet nsn.1 nsn.2, Event.setAPIVersion "extensions/batchv1beta1",
           Event.setKind "CronJob", Event.marshalObject (stamp cj)])
      | Raw.cronJobPtr none => (Outcome.panic nilDereference, [Event.callerGet nsn.1 nsn.2])
      | Raw.cronJobVal _ =>
        (Outcome.panic (interfaceConversion "v1beta1.CronJob"), [Event.callerGet nsn.1 nsn.2])
      | Raw.nilInterface =>
        (Outcome.panic (interfaceConversion "nil"), [Event.callerGet nsn.1 nsn.2])
      | Raw.other t _ =>
        (Outcome.panic (interfaceConversion t), [Event.callerGet nsn.1 nsn.2])

/-- Run a given cronjob: decompose the path, check the Runnable capability of the
caller dynamically, delegate or fail with the formatted error. -/
def CronJob.Run (env : Env) (r : CronJob) (pa : String) : Option GoError × List Event :=
  let nsn := env.namespaced pa
  match r.caller with
  | some c =>
    match c.Runnable with
    | some run => (run nsn.1 nsn.2, [Event.callerRun nsn.1 nsn.2])
    | none => (some (GoError.mk ("unable to run cronjob " ++ pa)), [])
  | none => (some (GoError.mk ("unable to run cronjob " ++ pa)), [])

/-- Header return resource header. -/
def CronJob.Header (env : Env) (ns : String) : Row :=
  let hh : Row := []
  let hh := if ns = env.AllNamespaces then hh ++ ["NAMESPACE"] else hh
  hh ++ ["NAME", "SCHEDULE", "SUSPEND", "ACTIVE", "LAST_SCHEDULE", "AGE"]

/-- Fields retrieves displayable fields: every read goes through the instance pointer,
and the suspend flag is read through the Suspend pointer without a nil check. -/
def CronJob.Fields (env : Env) (r : CronJob) (ns : String) : Outcome Row :=
  match r.inst with
  | none => Outcome.panic nilDereference
  | some i =>
    let ff : Row := []
    let ff := if ns = env.AllNamespaces then ff ++ [i.ObjectMeta.Namespace] else ff
    let lastScheduled :=
      match i.Status.LastScheduleTime with
      | some t => env.toAge t
      | none => "<none>"
    match i.Spec.Suspend with
    | none => Outcome.panic nilDereference
    | some suspend =>
      Outcome.ret (ff ++ [i.ObjectMeta.Name, i.Spec.Schedule, env.boolToStr suspend,
        strconv.Itoa i.Status.Active.length, lastScheduled,
        env.toAge i.ObjectMeta.CreationTimestamp])

end resource

/-! ## A concrete environment

Executable stand-ins for the helpers kept in other files, used to evaluate the
adapter on concrete inputs. -/

namespace sample

/-- The characters after the last slash of a path. -/
def lastSegment (cs : List Char) : List Char :=
  (cs.reverse.takeWhile (fun c => c != '/')).reverse

/-- The characters up to and including the last slash of a path. -/
def dirPart (cs : List Char) : List Char :=
  cs.take (cs.length - (lastSegment cs).length)

/-- Removal of the leading and trailing slashes. -/
def trimSlash (cs : List Char) : List Char :=
  ((cs.dropWhile (fun c => c == '/')).reverse.dropWhile (fun c => c == '/')).reverse

/-- Modelled from the spec: the helper namespaced (absent from cronjob.go) decomposes
an identity path namespace/name into its namespace and its name. -/
def namespaced (p : String) : String × String :=
  (String.mk (trimSlash (dirPart p.data)), String.mk (lastSegment p.data))

/-- Modelled from the spec: Base.namespacedName (absent from cronjob.go) computes the
namespace/name identity string of an object. -/
def namespacedName (m : metav1.ObjectMeta) : String :=
  if m.Namespace = "" then m.Name else m.Namespace ++ "/" ++ m.Name

/-- Modelled from the spec: toAge (absent from cronjob.go) renders the time elapsed
since a timestamp; the clock is frozen at second 1000 here. -/
def toAge (t : metav1.Time) : String :=
  toString (1000 - t.unix) ++ "s"

/-- Modelled from the spec: boolToStr (absent from cronjob.go) renders a boolean as
its canonical token. -/
def boolToStr (b : Bool) : String :=
  if b then "true" else "false"

/-- Modelled from the spec: Base.marshalObject (absent from cronjob.go) serializes an
object to text; this stand-in prints the type metadata and the identity and never
fails. -/
def marshalObject (o : batchv1beta1.CronJob) : String × Option GoError :=
  ("apiVersion: " ++ o.TypeMeta.APIVersion ++ ", kind: " ++ o.TypeMeta.Kind ++
    ", name: " ++ o.ObjectMeta.Name ++ ", namespace: " ++ o.ObjectMeta.Namespace, none)

/-- A cron job that runs every minute, is suspended, has no active run, was never
scheduled, carries no type metadata, and lives in namespace batch. -/
def job : batchv1beta1.CronJob :=
  { TypeMeta := { Kind := "", APIVersion := "" }
    ObjectMeta := { Name := "nightly", Namespace := "batch", CreationTimestamp := { unix := 940 } }
    Spec := { Schedule := "* * * * *", Suspend := some true, ConcurrencyPolicy := "Allow" }
    Status := { Active := [], LastScheduleTime := none } }

/-- The same cron job with the optional Suspend field left unset (nil pointer). -/
def jobNoSuspend : batchv1beta1.CronJob :=
  { job with Spec := { Schedule := "* * * * *", Suspend := none, ConcurrencyPolicy := "Allow" } }

/-- The error of a failed fetch. -/
def notFound : GoError :=
  { msg := "cronjobs.batch not found" }

/-- A fetch that knows batch/nightly only and hands it out as a pointer. -/
def getPtr (ns n : String) : Raw × Option GoError :=
  if ns = "batch" ∧ n = "nightly" then (Raw.cronJobPtr (some job), none)
  else (Raw.nilInterface, some notFound)

/-- A fetch that knows batch/nightly only and hands it out as a direct value. -/
def getVal (ns n : String) : Raw × Option GoError :=
  if ns = "batch" ∧ n = "nightly" then (Raw.cronJobVal job, none)
  else (Raw.nilInterface, some notFound)

/-- The action of a runnable caller: it succeeds on batch/nightly only. -/
def runJob (ns n : String) : Option GoError :=
  if ns = "batch" ∧ n = "nightly" then none else some notFound

/-- A caller with the runnable capability. -/
def runnableCaller : k8s.Res :=
  { Get := getPtr, Runnable := some runJob }

/-- A caller without the runnable capability. -/
def plainCaller : k8s.Res :=
  { Get := getPtr, Runnable := none }

/-- A caller whose Get returns the object in direct-value form. -/
def valueCaller : k8s.Res :=
  { Get := getVal, Runnable := none }

/-- The environment built from the stand-ins; AllNamespaces is the empty string. -/
def env : resource.Env :=
  { AllNamespaces := ""
    namespaced := namespaced
    namespacedName := namespacedName
    toAge := toAge
    boolToStr := boolToStr
    marshalObject := marshalObject
    k8sNewCronJob := some runnableCaller }

/-- The adapter that NewInstance builds from the cron job with Suspend unset. -/
def adapterNoSuspend : resource.CronJob :=
  { caller := some runnableCaller, path := "batch/nightly", inst := some jobNoSuspend }

/-- The adapter that NewInstance builds from the suspended cron job. -/
def adapter : resource.CronJob :=
  { caller := some runnableCaller, path := "batch/nightly", inst := some job }

end sample

/-! ## Supporting lemmas -/

namespace resource

/-- Header has seven columns in all-namespaces scope and six otherwise. -/
theorem Header_length (env : Env) (ns : String) :
    (CronJob.Header env ns).length = if ns = env.AllNamespaces then 7 else 6 := by
  unfold CronJob.Header
  split <;> simp

/-- The row that Fields builds once the Suspend pointer is known to hold a flag. -/
theorem Fields_of_suspend (env : Env) (r : CronJob) (i : batchv1beta1.CronJob) (b : Bool)
    (ns : String) (hi : r.inst = some i) (hs : i.Spec.Suspend = some b) :
    CronJob.Fields env r ns = Outcome.ret
      ((if ns = env.AllNamespaces then [i.ObjectMeta.Namespace] else []) ++
        [i.ObjectMeta.Name, i.Spec.Schedule, env.boolToStr b,
         strconv.Itoa i.Status.Active.length,
         (match i.Status.LastScheduleTime with
          | some t => env.toAge t
          | none => "<none>"),
         env.toAge i.ObjectMeta.CreationTimestamp]) := by
  unfold CronJob.Fields
  rw [hi]
  simp only [hs]
  split <;> simp

/-- With the Suspend pointer set, Fields returns a row as long as the header. -/
theorem Fields_length_of_suspend (env : Env) (r : CronJob) (i : batchv1beta1.CronJob)
    (b : Bool) (ns : String) (hi : r.inst = some i) (hs : i.Spec.Suspend = some b) :
    ∃ row, CronJob.Fields env r ns = Outcome.ret row ∧
      row.length = (CronJob.Header env ns).length := by
  refine ⟨_, Fields_of_suspend env r i b ns hi hs, ?_⟩
  rw [Header_length]
  split <;> simp

/-- With the Suspend pointer unset, Fields panics in every scope. -/
theorem Fields_of_nil_suspend (env : Env) (r : CronJob) (i : batchv1beta1.CronJob)
    (ns : String) (hi : r.inst = some i) (hs : i.Spec.Suspend = none) :
    CronJob.Fields env r ns = Outcome.panic nilDereference := by
  unfold CronJob.Fields
  rw [hi]
  simp only [hs]

/-- In all-namespaces scope, with the Suspend pointer set, Fields is the namespace
followed by the row of a concrete scope. -/
theorem Fields_all_namespaces_cons (env : Env) (r : CronJob) (i : batchv1beta1.CronJob)
    (b : Bool) (ns : String) (hi : r.inst = some i) (hs : i.Spec.Suspend = some b)
    (hns : ns ≠ env.AllNamespaces) :
    ∃ row, CronJob.Fields env r ns = Outcome.ret (i.ObjectMeta.Name :: row) ∧
      CronJob.Fields env r env.AllNamespaces =
        Outcome.ret (i.ObjectMeta.Namespace :: i.ObjectMeta.Name :: row) := by
  rw [Fields_of_suspend env r i b ns hi hs, Fields_of_suspend env r i b _ hi hs]
  simp [hns]

/-- The two example rows of the specification, on the suspended sample job. -/
theorem Fields_sample_rows :
    CronJob.NewInstance sample.env (Raw.cronJobPtr (some sample.job)) =
      Outcome.ret sample.adapter ∧
    CronJob.Fields sample.env sample.adapter "default" =
      Outcome.ret ["nightly", "* * * * *", "true", "0", "<none>", "60s"] ∧
    CronJob.Fields sample.env sample.adapter sample.env.AllNamespaces =
      Outcome.ret ["batch", "nightly", "* * * * *", "true", "0", "<none>", "60s"] := by
  refine ⟨rfl, ?_, ?_⟩ <;> decide

/-- Marshal panics at the unchecked type assertion whenever the fetch succeeds with
a CronJob in direct-value form. -/
theorem Marshal_of_value (env : Env) (r : CronJob) (path : String) (c : k8s.Res)
    (o : batchv1beta1.CronJob) (hc : r.caller = some c)
    (hg : c.Get (env.namespaced path).1 (env.namespaced path).2 = (Raw.cronJobVal o, none)) :
    CronJob.Marshal env r path =
      (Outcome.panic (interfaceConversion "v1beta1.CronJob"),
        [Event.callerGet (env.namespaced path).1 (env.namespaced path).2]) := by
  unfold CronJob.Marshal
  simp only [hc, hg]

/-! ## The claims -/

/-- C1 (failing input). NewInstance populates an adapter from a CronJob whose optional
Suspend field is unset; on that adapter Fields returns no row in either scope (it panics
on the nil Suspend pointer), while Header has 6 and 7 columns. -/
theorem Fields_unset_suspend_returns_no_row :
    CronJob.NewInstance sample.env (Raw.cronJobVal sample.jobNoSuspend) =
      Outcome.ret sample.adapterNoSuspend ∧
    CronJob.Fields sample.env sample.adapterNoSuspend "batch" =
      Outcome.panic nilDereference ∧
    CronJob.Fields sample.env sample.adapterNoSuspend sample.env.AllNamespaces =
      Outcome.panic nilDereference ∧
    (CronJob.Header sample.env "batch").length = 6 ∧
    (CronJob.Header sample.env sample.env.AllNamespaces).length = 7 := by
  refine ⟨rfl, ?_, ?_, ?_, ?_⟩ <;> decide

/-- C2 (failing input). On the adapter populated from the CronJob with Suspend unset,
Header begins with NAMESPACE in all-namespaces scope and with NAME otherwise, but Fields
yields no row beginning with the namespace, respectively with the name: it panics. -/
theorem Fields_unset_suspend_has_no_leading_column :
    (CronJob.Header sample.env sample.env.AllNamespaces).head? = some "NAMESPACE" ∧
    (CronJob.Header sample.env "batch").head? = some "NAME" ∧
    (¬ ∃ rest, CronJob.Fields sample.env sample.adapterNoSuspend sample.env.AllNamespaces =
      Outcome.ret ("batch" :: rest)) ∧
    (¬ ∃ rest, CronJob.Fields sample.env sample.adapterNoSuspend "batch" =
      Outcome.ret ("nightly" :: rest)) := by
  refine ⟨by decide, by decide, ?_, ?_⟩
  · rintro ⟨rest, h⟩
    rw [Fields_of_nil_suspend sample.env sample.adapterNoSuspend sample.jobNoSuspend _ rfl rfl] at h
    cases h
  · rintro ⟨rest, h⟩
    rw [Fields_of_nil_suspend sample.env sample.adapterNoSuspend sample.jobNoSuspend _ rfl rfl] at h
    cases h

/-- C3. For every CronJob object o, NewInstance on the direct value and NewInstance on
a pointer to o both return an adapter populated with o: each holds o as its instance and
has the namespaced name of o as its path, around the same caller; and in every namespace
scope the two give the same Fields outcome, the one computed from o (the row of o when
its Suspend pointer is set, the nil dereference panic otherwise). -/
theorem NewInstance_value_pointer_equiv (env : Env) (o : batchv1beta1.CronJob) :
    ∃ a b : CronJob,
      CronJob.NewInstance env (Raw.cronJobVal o) = Outcome.ret a ∧
      CronJob.NewInstance env (Raw.cronJobPtr (some o)) = Outcome.ret b ∧
      a.inst = some o ∧ b.inst = some o ∧
      a.path = env.namespacedName o.ObjectMeta ∧ b.path = a.path ∧
      a.caller = env.k8sNewCronJob ∧ b.caller = a.caller ∧
      ∀ ns : String,
        CronJob.Fields env a ns = CronJob.Fields env b ns ∧
        CronJob.Fields env b ns =
          (match o.Spec.Suspend with
           | some flag => Outcome.ret
              ((if ns = env.AllNamespaces then [o.ObjectMeta.Namespace] else []) ++
                [o.ObjectMeta.Name, o.Spec.Schedule, env.boolToStr flag,
                 strconv.Itoa o.Status.Active.length,
                 (match o.Status.LastScheduleTime with
                  | some t => env.toAge t
                  | none => "<none>"),
                 env.toAge o.ObjectMeta.CreationTimestamp])
           | none => Outcome.panic nilDereference) := by
  refine ⟨_, _, rfl, rfl, rfl, rfl, rfl, rfl, rfl, rfl, fun ns => ⟨rfl, ?_⟩⟩
  cases hs : o.Spec.Suspend with
  | none => exact Fields_of_nil_suspend env _ o ns rfl hs
  | some flag => exact Fields_of_suspend env _ o flag ns rfl hs

/-- C4. When the caller of the adapter does not satisfy the Runnable capability, Run(pa)
returns the error whose message is the text unable to run cronjob followed by the
original path pa, and records no call on the caller. -/
theorem Run_unsupported (env : Env) (r : CronJob) (pa : String)
    (h : ∀ c, r.caller = some c → c.Runnable = none) :
    CronJob.Run env r pa = (some (GoError.mk ("unable to run cronjob " ++ pa)), []) := by
  unfold CronJob.Run
  cases hc : r.caller with
  | none => rfl
  | some c => simp only [h c hc]

/-- Witness of C4: the caller without the runnable capability, path batch/nightly. -/
theorem Run_unsupported_witness :
    (∀ c, (NewCronJobWithArgs (some sample.plainCaller)).caller = some c → c.Runnable = none) ∧
    CronJob.Run sample.env (NewCronJobWithArgs (some sample.plainCaller)) "batch/nightly" =
      (some (GoError.mk ("unable to run cronjob " ++ "batch/nightly")), []) :=
  ⟨fun c hc => by cases hc; rfl,
   Run_unsupported sample.env (NewCronJobWithArgs (some sample.plainCaller)) "batch/nightly"
     (fun c hc => by cases hc; rfl)⟩

/-- C5. When the caller of the adapter satisfies the Runnable capability, Run(pa) makes
exactly one call, the Run of the caller on the namespace and name decomposed from pa, and
returns exactly the result of that call (nil or the error of the caller, unchanged). -/
theorem Run_delegates (env : Env) (r : CronJob) (pa : String) (c : k8s.Res)
    (run : String → String → Option GoError)
    (hc : r.caller = some c) (hr : c.Runnable = some run) :
    CronJob.Run env r pa =
      (run (env.namespaced pa).1 (env.namespaced pa).2,
        [Event.callerRun (env.namespaced pa).1 (env.namespaced pa).2]) := by
  unfold CronJob.Run
  simp only [hc, hr]

/-- Witness of C5: the runnable caller on a path it rejects, so that the error of the
caller is what Run returns. -/
theorem Run_delegates_witness :
    (NewCronJobWithArgs (some sample.runnableCaller)).caller = some sample.runnableCaller ∧
    sample.runnableCaller.Runnable = some sample.runJob ∧
    CronJob.Run sample.env (NewCronJobWithArgs (some sample.runnableCaller)) "batch/weekly" =
      (sample.runJob (sample.env.namespaced "batch/weekly").1
          (sample.env.namespaced "batch/weekly").2,
        [Event.callerRun (sample.env.namespaced "batch/weekly").1
          (sample.env.namespaced "batch/weekly").2]) :=
  ⟨rfl, rfl,
   Run_delegates sample.env (NewCronJobWithArgs (some sample.runnableCaller)) "batch/weekly"
     sample.runnableCaller sample.runJob rfl rfl⟩

/-- C6. When the Get of the caller, on the namespace and name decomposed from the path,
returns an error e, Marshal returns the empty string together with e itself, and the
only recorded step is that Get: nothing is stamped and nothing is serialized. -/
theorem Marshal_fetch_error (env : Env) (r : CronJob) (path : String) (c : k8s.Res)
    (e : GoError) (hc : r.caller = some c)
    (he : (c.Get (env.namespaced path).1 (env.namespaced path).2).2 = some e) :
    CronJob.Marshal env r path =
      (Outcome.ret ("", some e),
        [Event.callerGet (env.namespaced path).1 (env.namespaced path).2]) := by
  unfold CronJob.Marshal
  simp only [hc]
  rcases hg : c.Get (env.namespaced path).1 (env.namespaced path).2 with ⟨i, err⟩
  rw [hg] at he
  simp only at he
  subst he
  rfl

/-- Witness of C6: the fetch of the unknown path batch/weekly fails with not found. -/
theorem Marshal_fetch_error_witness :
    (NewCronJobWithArgs (some sample.plainCaller)).caller = some sample.plainCaller ∧
    (sample.plainCaller.Get (sample.env.namespaced "batch/weekly").1
      (sample.env.namespaced "batch/weekly").2).2 = some sample.notFound ∧
    CronJob.Marshal sample.env (NewCronJobWithArgs (some sample.plainCaller)) "batch/weekly" =
      (Outcome.ret ("", some sample.notFound),
        [Event.callerGet (sample.env.namespaced "batch/weekly").1
          (sample.env.namespaced "batch/weekly").2]) :=
  ⟨rfl, by decide,
   Marshal_fetch_error sample.env (NewCronJobWithArgs (some sample.plainCaller)) "batch/weekly"
     sample.plainCaller sample.notFound rfl (by decide)⟩

/-- Pointer form. When the live fetch succeeds with a pointer to a CronJob object o, Marshal
returns what the serializer returns on o with Kind CronJob and APIVersion
extensions/batchv1beta1 and the object metadata, spec and status of o, whatever type
metadata o held; the steps are the fetch, the two stamps and the serialization; and the
outcome is the same for every previously loaded instance of the adapter. -/
theorem Marshal_stamps (env : Env) (r : CronJob) (path : String) (c : k8s.Res)
    (o : batchv1beta1.CronJob) (hc : r.caller = some c)
    (hg : c.Get (env.namespaced path).1 (env.namespaced path).2 =
      (Raw.cronJobPtr (some o), none)) :
    CronJob.Marshal env r path =
      (Outcome.ret (env.marshalObject
          { TypeMeta := { Kind := "CronJob", APIVersion := "extensions/batchv1beta1" }
            ObjectMeta := o.ObjectMeta, Spec := o.Spec, Status := o.Status }),
        [Event.callerGet (env.namespaced path).1 (env.namespaced path).2,
         Event.setAPIVersion "extensions/batchv1beta1", Event.setKind "CronJob",
         Event.marshalObject
          { TypeMeta := { Kind := "CronJob", APIVersion := "extensions/batchv1beta1" }
            ObjectMeta := o.ObjectMeta, Spec := o.Spec, Status := o.Status }]) ∧
    ∀ loaded : Option batchv1beta1.CronJob,
      CronJob.Marshal env { r with inst := loaded } path = CronJob.Marshal env r path := by
  constructor
  · unfold CronJob.Marshal
    simp only [hc, hg]
    rfl
  · intro loaded
    rfl

/-- Pointer form on the sample: the job carries empty type metadata, the adapter has
nothing loaded, and the fetch of batch/nightly succeeds with a pointer to the job. -/
theorem Marshal_stamps_witness :
    (NewCronJobWithArgs (some sample.plainCaller)).caller = some sample.plainCaller ∧
    sample.plainCaller.Get (sample.env.namespaced "batch/nightly").1
      (sample.env.namespaced "batch/nightly").2 = (Raw.cronJobPtr (some sample.job), none) ∧
    sample.job.TypeMeta = { Kind := "", APIVersion := "" } ∧
    (CronJob.Marshal sample.env (NewCronJobWithArgs (some sample.plainCaller))
        "batch/nightly").1 =
      Outcome.ret
        ("apiVersion: extensions/batchv1beta1, kind: CronJob, name: nightly, namespace: batch",
          none) :=
  ⟨rfl, by decide, rfl,
   (congrArg Prod.fst
     (Marshal_stamps sample.env (NewCronJobWithArgs (some sample.plainCaller)) "batch/nightly"
       sample.plainCaller sample.job rfl (by decide)).1).trans (by decide)⟩

/-- C7 (failing input). The live fetch of batch/nightly succeeds with the sample CronJob
in direct-value form; Marshal returns no serialization at all, stamped or not: it
panics at the unchecked pointer type assertion with only the fetch recorded. The same
object fetched in pointer form is serialized with the stamped type metadata. -/
theorem Marshal_value_form_returns_no_serialization :
    sample.valueCaller.Get (sample.env.namespaced "batch/nightly").1
      (sample.env.namespaced "batch/nightly").2 = (Raw.cronJobVal sample.job, none) ∧
    (∀ out : String × Option GoError,
      (CronJob.Marshal sample.env (NewCronJobWithArgs (some sample.valueCaller))
        "batch/nightly").1 ≠ Outcome.ret out) ∧
    (CronJob.Marshal sample.env (NewCronJobWithArgs (some sample.valueCaller))
        "batch/nightly").2 = [Event.callerGet "batch" "nightly"] ∧
    sample.plainCaller.Get (sample.env.namespaced "batch/nightly").1
      (sample.env.namespaced "batch/nightly").2 = (Raw.cronJobPtr (some sample.job), none) ∧
    (CronJob.Marshal sample.env (NewCronJobWithArgs (some sample.plainCaller))
        "batch/nightly").1 =
      Outcome.ret
        ("apiVersion: extensions/batchv1beta1, kind: CronJob, name: nightly, namespace: batch",
          none) := by
  refine ⟨by decide, ?_, by decide, by decide, by decide⟩
  intro out h
  rw [Marshal_of_value sample.env _ "batch/nightly" sample.valueCaller sample.job rfl
    (by decide)] at h
  cases h

/-- C9 (failing input). The caller returns the CronJob in direct-value form; the fetch
succeeds, yet Marshal panics at its unchecked pointer type assertion: no stamp is
written and the serializer is never reached. -/
theorem Marshal_value_form_panics :
    sample.valueCaller.Get "batch" "nightly" = (Raw.cronJobVal sample.job, none) ∧
    CronJob.Marshal sample.env (NewCronJobWithArgs (some sample.valueCaller)) "batch/nightly" =
      (Outcome.panic (interfaceConversion "v1beta1.CronJob"),
        [Event.callerGet "batch" "nightly"]) ∧
    (∃ a, CronJob.NewInstance sample.env (Raw.cronJobVal sample.job) = Outcome.ret a) := by
  refine ⟨by decide, by decide, ⟨_, rfl⟩⟩

/-- C10 (counterexample). The typed nil pointer has the concrete kind pointer to
CronJob, yet NewInstance returns no adapter on it: the pointer case of the type switch
stores nil and the read of the object metadata through it panics. -/
theorem NewInstance_nil_pointer_no_adapter :
    (∃ p, Raw.cronJobPtr none = Raw.cronJobPtr p) ∧
    CronJob.NewInstance sample.env (Raw.cronJobPtr none) = Outcome.panic nilDereference ∧
    ¬ ∃ a : CronJob, CronJob.NewInstance sample.env (Raw.cronJobPtr none) = Outcome.ret a := by
  refine ⟨⟨none, rfl⟩, rfl, ?_⟩
  rintro ⟨a, h⟩
  cases h

/-- C10 (amended). NewInstance ends in the fatal log, returning no adapter, on every raw
object whose dynamic type is neither CronJob nor pointer to CronJob (the nil interface
and every other type); on a CronJob value o and on a non-nil pointer to a CronJob o it
returns the adapter around the default caller that holds o and whose path is the
namespaced name computed from the metadata of o; on the typed nil pointer it neither
logs fatally nor returns: it panics on the nil dereference. -/
theorem NewInstance_by_kind (env : Env) :
    (∀ i : Raw, (∀ p, i ≠ Raw.cronJobPtr p) → (∀ o, i ≠ Raw.cronJobVal o) →
      CronJob.NewInstance env i = Outcome.fatal ("Unknown " ++ Raw.goRepr i)) ∧
    CronJob.NewInstance env Raw.nilInterface = Outcome.fatal "Unknown <nil>" ∧
    (∀ t s : String,
      CronJob.NewInstance env (Raw.other t s) = Outcome.fatal ("Unknown " ++ s)) ∧
    (∀ o : batchv1beta1.CronJob, CronJob.NewInstance env (Raw.cronJobVal o) =
      Outcome.ret { caller := env.k8sNewCronJob, path := env.namespacedName o.ObjectMeta,
                    inst := some o }) ∧
    (∀ o : batchv1beta1.CronJob, CronJob.NewInstance env (Raw.cronJobPtr (some o)) =
      Outcome.ret { caller := env.k8sNewCronJob, path := env.namespacedName o.ObjectMeta,
                    inst := some o }) ∧
    CronJob.NewInstance env (Raw.cronJobPtr none) = Outcome.panic nilDereference := by
  refine ⟨?_, rfl, fun _ _ => rfl, fun _ => rfl, fun _ => rfl, rfl⟩
  intro i hp hv
  cases i with
  | cronJobPtr p => exact absurd rfl (hp p)
  | cronJobVal o => exact absurd rfl (hv o)
  | nilInterface => rfl
  | other t s => rfl

/-- C8 (failing input). On the adapter populated from the CronJob with Suspend unset,
Fields in the concrete scope batch is not the six-column row, whatever token stands in
the suspend column: the nil Suspend pointer is dereferenced and the call panics. -/
theorem Fields_unset_suspend_is_not_the_row :
    ∀ flag : String,
      CronJob.Fields sample.env sample.adapterNoSuspend "batch" ≠
        Outcome.ret ["nightly", "* * * * *", flag, "0", "<none>", "60s"] := by
  intro flag h
  rw [Fields_of_nil_suspend sample.env sample.adapterNoSuspend sample.jobNoSuspend _ rfl rfl] at h
  cases h

end resource
